import Mathlib

/-!
Verification of the market-snapshot pipeline (`rest_api` package).

Shallow embedding of `src/rest_api/snapshot.py`, `binance_client.py` (data
model only) and the snapshot path of `main.py`.  Python floats are embedded
as exact rationals (`ℚ`); Python's `json` module round-trips floats exactly
(via `repr`), so this denotation is faithful for the persistence claims.
Python's `/` raises `ZeroDivisionError` on a zero denominator, which is
modelled explicitly by `pydiv` returning `Except`.
-/

namespace RatuRest

/-- Wall-clock instant at second resolution, standing for `datetime.now()`.
Each call of `datetime.now()` in the source corresponds to one explicit
`DateTime` parameter of the embedding. -/
structure DateTime where
  year : Nat
  month : Nat
  day : Nat
  hour : Nat
  minute : Nat
  second : Nat
deriving DecidableEq

/-- Zero-padded two-digit rendering, as `strftime` does for `%m`, `%d`, … -/
def pad2 (n : Nat) : String :=
  if n < 10 then "0" ++ toString n else toString n

/-- Zero-padded four-digit rendering, as `strftime` does for `%Y`. -/
def pad4 (n : Nat) : String :=
  if n < 10 then "000" ++ toString n
  else if n < 100 then "00" ++ toString n
  else if n < 1000 then "0" ++ toString n
  else toString n

/-- `datetime.strftime("%Y%m%d_%H%M%S")`. -/
def fmtTimestamp (t : DateTime) : String :=
  pad4 t.year ++ pad2 t.month ++ pad2 t.day ++ "_" ++
    pad2 t.hour ++ pad2 t.minute ++ pad2 t.second

/-- `datetime.isoformat()` at second resolution. -/
def isoformat (t : DateTime) : String :=
  pad4 t.year ++ "-" ++ pad2 t.month ++ "-" ++ pad2 t.day ++ "T" ++
    pad2 t.hour ++ ":" ++ pad2 t.minute ++ ":" ++ pad2 t.second

/-! ## Data model (`binance_client.py` dataclasses) -/

/-- Dataclass `TickerPrice`. -/
structure TickerPrice where
  symbol : String
  price : ℚ
deriving DecidableEq

/-- Dataclass `Ticker24h`. -/
structure Ticker24h where
  symbol : String
  price_change : ℚ
  price_change_percent : ℚ
  weighted_avg_price : ℚ
  prev_close_price : ℚ
  last_price : ℚ
  bid_price : ℚ
  ask_price : ℚ
  open_price : ℚ
  high_price : ℚ
  low_price : ℚ
  volume : ℚ
  quote_volume : ℚ
  open_time : Int
  close_time : Int
  trade_count : Int
deriving DecidableEq

/-- Dataclass `OrderBookDepth`: bid and ask levels are `(price, quantity)`
pairs, best price first. -/
structure OrderBookDepth where
  symbol : String
  bids : List (ℚ × ℚ)
  asks : List (ℚ × ℚ)
  last_update_id : Int
deriving DecidableEq

/-- Dataclass `RecentTrade`. -/
structure RecentTrade where
  trade_id : Int
  price : ℚ
  qty : ℚ
  quote_qty : ℚ
  time : Int
  is_buyer_maker : Bool
deriving DecidableEq

/-- Dataclass `Kline`.  The Python field `open` is a Lean keyword and is
rendered `open_`; serialization below still uses the key `"open"`. -/
structure Kline where
  open_time : Int
  open_ : ℚ
  high : ℚ
  low : ℚ
  close : ℚ
  volume : ℚ
  close_time : Int
  quote_volume : ℚ
  trade_count : Int
  taker_buy_volume : ℚ
  taker_buy_quote_volume : ℚ
deriving DecidableEq

/-- Result of `get_book_ticker` (a plain dict in the source, with exactly
these keys). -/
structure BookTicker where
  symbol : String
  bid_price : ℚ
  bid_qty : ℚ
  ask_price : ℚ
  ask_qty : ℚ
deriving DecidableEq

/-! ## Python and JSON values

`PyVal` denotes the Python values that can appear in a snapshot dict
(`json.dump`-serializable values plus tuples).  `JsonVal` denotes parsed
JSON.  `json.dump` sends both lists and tuples to JSON arrays; `json.load`
returns arrays as lists — this asymmetry is the crux of the round-trip
claim. -/

mutual
inductive PyVal where
  | pynone : PyVal
  | bool (b : Bool) : PyVal
  | int (n : Int) : PyVal
  | float (q : ℚ) : PyVal
  | str (s : String) : PyVal
  | list (xs : PyList) : PyVal
  | tuple (xs : PyList) : PyVal
  | dict (kvs : PyObj) : PyVal

inductive PyList where
  | nil : PyList
  | cons (hd : PyVal) (tl : PyList) : PyList

inductive PyObj where
  | nil : PyObj
  | cons (key : String) (val : PyVal) (tl : PyObj) : PyObj
end

mutual
inductive JsonVal where
  | null : JsonVal
  | bool (b : Bool) : JsonVal
  | int (n : Int) : JsonVal
  | float (q : ℚ) : JsonVal
  | str (s : String) : JsonVal
  | arr (xs : JsonArr) : JsonVal
  | obj (kvs : JsonObj) : JsonVal

inductive JsonArr where
  | nil : JsonArr
  | cons (hd : JsonVal) (tl : JsonArr) : JsonArr

inductive JsonObj where
  | nil : JsonObj
  | cons (key : String) (val : JsonVal) (tl : JsonObj) : JsonObj
end

mutual
/-- Serialization performed by `json.dump`: tuples and lists both become
JSON arrays, dict insertion order is preserved. -/
def jsonOfPy : PyVal → JsonVal
  | .pynone => .null
  | .bool b => .bool b
  | .int n => .int n
  | .float q => .float q
  | .str s => .str s
  | .list xs => .arr (jsonOfPyList xs)
  | .tuple xs => .arr (jsonOfPyList xs)
  | .dict kvs => .obj (jsonOfPyObj kvs)

def jsonOfPyList : PyList → JsonArr
  | .nil => .nil
  | .cons x xs => .cons (jsonOfPy x) (jsonOfPyList xs)

def jsonOfPyObj : PyObj → JsonObj
  | .nil => .nil
  | .cons k v kvs => .cons k (jsonOfPy v) (jsonOfPyObj kvs)
end

mutual
/-- Deserialization performed by `json.load`: arrays become Python lists
(never tuples), object key order is preserved. -/
def pyOfJson : JsonVal → PyVal
  | .null => .pynone
  | .bool b => .bool b
  | .int n => .int n
  | .float q => .float q
  | .str s => .str s
  | .arr xs => .list (pyOfJsonArr xs)
  | .obj kvs => .dict (pyOfJsonObj kvs)

def pyOfJsonArr : JsonArr → PyList
  | .nil => .nil
  | .cons x xs => .cons (pyOfJson x) (pyOfJsonArr xs)

def pyOfJsonObj : JsonObj → PyObj
  | .nil => .nil
  | .cons k v kvs => .cons k (pyOfJson v) (pyOfJsonObj kvs)
end

/-! ## Filesystem model

A file written by `save_snapshot` holds JSON text; its content is denoted
by the `JsonVal` it parses to, or `rawText` when it is not valid JSON. -/

/-- Content of a stored file: valid JSON text denoted by its parse, or text
that is not valid JSON. -/
inductive FileContent where
  | jsonText (v : JsonVal) : FileContent
  | rawText (s : String) : FileContent

/-- Directories known to exist and files by full path, newest first. -/
structure FileSystem where
  dirs : List String
  files : List (String × FileContent)

/-- Path lookup; the newest write wins (files are consed at the front). -/
def lookupFile (fs : FileSystem) (path : String) : Option FileContent :=
  go fs.files
where
  go : List (String × FileContent) → Option FileContent
    | [] => Option.none
    | (p, c) :: rest => if p = path then some c else go rest

/-! ## Errors -/

/-- The nine fetch operations issued by `create_market_snapshot`, in source
order. -/
inductive FetchOp where
  | tickerPrice
  | ticker24h
  | orderBook
  | recentTrades
  | avgPrice
  | bookTicker
  | klines1h
  | klines4h
  | klines1d
deriving DecidableEq

/-- Error raised by a failing fetch; it identifies the failing operation
and carries the transport message.  (The spec names this
`DataUnavailableError`; in the source it is the exception propagated from
the specific client call.) -/
structure DataUnavailableError where
  op : FetchOp
  message : String
deriving DecidableEq

/-- Errors that can abort snapshot assembly: an unavailable fetch, or a
Python `ZeroDivisionError` from the `/` operator. -/
inductive SnapError where
  | unavailable (e : DataUnavailableError)
  | zeroDivision
deriving DecidableEq

/-- Error raised by `load_snapshot`: `open` failing on a missing file, or
`json.load` failing on text that is not valid JSON.  There is no
schema-related constructor because the source performs no validation. -/
inductive LoadError where
  | fileNotFound
  | jsonDecodeError
deriving DecidableEq

/-- Python's `/`: raises `ZeroDivisionError` when the denominator is 0. -/
def pydiv (a b : ℚ) : Except SnapError ℚ :=
  if b = 0 then .error .zeroDivision else .ok (a / b)

/-! ## Derived analytics (`snapshot.py` lines 67–116) -/

/-- `trades_buy = sum(1 for t in recent_trades if not t.is_buyer_maker)`. -/
def trades_buy (ts : List RecentTrade) : Nat :=
  (ts.filter (fun t => !t.is_buyer_maker)).length

/-- `trades_sell = sum(1 for t in recent_trades if t.is_buyer_maker)`. -/
def trades_sell (ts : List RecentTrade) : Nat :=
  (ts.filter (fun t => t.is_buyer_maker)).length

/-- `buy_sell_ratio = trades_buy / trades_sell if trades_sell > 0 else 0`. -/
def buy_sell_ratio (ts : List RecentTrade) : Except SnapError ℚ :=
  if trades_sell ts > 0 then pydiv (trades_buy ts) (trades_sell ts) else .ok 0

/-- `total_bid_depth = sum(q for _, q in order_book.bids)`. -/
def total_bid_depth (ob : OrderBookDepth) : ℚ :=
  (ob.bids.map Prod.snd).sum

/-- `total_ask_depth = sum(q for _, q in order_book.asks)`. -/
def total_ask_depth (ob : OrderBookDepth) : ℚ :=
  (ob.asks.map Prod.snd).sum

/-- `bid_ask_ratio = total_bid_depth / total_ask_depth if total_ask_depth > 0
else 0`. -/
def bid_ask_ratio (ob : OrderBookDepth) : Except SnapError ℚ :=
  if total_ask_depth ob > 0 then pydiv (total_bid_depth ob) (total_ask_depth ob)
  else .ok 0

/-- `spread = asks[0][0] - bids[0][0] if order_book.asks and order_book.bids
else 0`. -/
def spread (ob : OrderBookDepth) : ℚ :=
  match ob.asks, ob.bids with
  | a :: _, b :: _ => a.1 - b.1
  | _, _ => 0

/-- `spread_percent = (spread / order_book.bids[0][0] * 100) if
order_book.bids else 0`.  Note the guard checks only that the bid side is
non-empty; a zero best bid price reaches Python's `/` and faults. -/
def spread_percent (ob : OrderBookDepth) : Except SnapError ℚ :=
  match ob.bids with
  | [] => .ok 0
  | b :: _ => do
      let r ← pydiv (spread ob) b.1
      pure (r * 100)

/-- `avg_trade_size = sum(t.qty for t in recent_trades) /
len(recent_trades) if recent_trades else 0`. -/
def avg_trade_size (ts : List RecentTrade) : Except SnapError ℚ :=
  match ts with
  | [] => .ok 0
  | _ :: _ => pydiv ((ts.map RecentTrade.qty).sum) ts.length

/-- Python's negative-index slice `l[-k:]`: the last `min(len(l), k)`
elements in order. -/
def pyTailSlice (l : List Kline) (k : Nat) : List Kline :=
  l.drop (l.length - k)

/-! ## The snapshot document (`snapshot.py` lines 79–117) -/

/-- The `"summary"` sub-dict. -/
structure Summary where
  price : ℚ
  avg_price_5m : ℚ
  price_change_24h : ℚ
  price_change_percent_24h : ℚ
  high_24h : ℚ
  low_24h : ℚ
  volume_24h : ℚ
  quote_volume_24h : ℚ
  trade_count_24h : Int
deriving DecidableEq

/-- The `"spread"` sub-dict. -/
structure SpreadInfo where
  absolute : ℚ
  percent : ℚ
deriving DecidableEq

/-- The `"depth_analysis"` sub-dict. -/
structure DepthAnalysis where
  total_bid_depth : ℚ
  total_ask_depth : ℚ
  bid_ask_ratio : ℚ
  top_bids : List (ℚ × ℚ)
  top_asks : List (ℚ × ℚ)
deriving DecidableEq

/-- The `"trade_analysis"` sub-dict. -/
structure TradeAnalysis where
  total_trades : Nat
  buy_trades : Nat
  sell_trades : Nat
  buy_sell_ratio : ℚ
  avg_trade_size : ℚ
deriving DecidableEq

/-- The snapshot dict built by `create_market_snapshot` (typed view; its
untyped dict rendering is `pyOfSnapshot`). -/
structure SnapshotDoc where
  timestamp : String
  symbol : String
  summary : Summary
  book_ticker : BookTicker
  spread : SpreadInfo
  depth_analysis : DepthAnalysis
  trade_analysis : TradeAnalysis
  klines_1h : List Kline
  klines_4h : List Kline
  klines_1d : List Kline
deriving DecidableEq

/-- Assembly of the snapshot dict from the fetched records (`snapshot.py`
lines 67–117).  `now` stands for the `datetime.now()` call on line 80. -/
def buildSnapshot (symbol : String) (ticker_price : TickerPrice)
    (ticker_24h : Ticker24h) (order_book : OrderBookDepth)
    (recent_trades : List RecentTrade) (avg_price : ℚ)
    (book_ticker : BookTicker) (klines_1h klines_4h klines_1d : List Kline)
    (now : DateTime) : Except SnapError SnapshotDoc := do
  let bsr ← buy_sell_ratio recent_trades
  let bar ← bid_ask_ratio order_book
  let sp ← spread_percent order_book
  let ats ← avg_trade_size recent_trades
  pure
    { timestamp := isoformat now
      symbol := symbol
      summary :=
        { price := ticker_price.price
          avg_price_5m := avg_price
          price_change_24h := ticker_24h.price_change
          price_change_percent_24h := ticker_24h.price_change_percent
          high_24h := ticker_24h.high_price
          low_24h := ticker_24h.low_price
          volume_24h := ticker_24h.volume
          quote_volume_24h := ticker_24h.quote_volume
          trade_count_24h := ticker_24h.trade_count }
      book_ticker := book_ticker
      spread := { absolute := spread order_book, percent := sp }
      depth_analysis :=
        { total_bid_depth := total_bid_depth order_book
          total_ask_depth := total_ask_depth order_book
          bid_ask_ratio := bar
          top_bids := order_book.bids.take 5
          top_asks := order_book.asks.take 5 }
      trade_analysis :=
        { total_trades := recent_trades.length
          buy_trades := trades_buy recent_trades
          sell_trades := trades_sell recent_trades
          buy_sell_ratio := bsr
          avg_trade_size := ats }
      klines_1h := pyTailSlice klines_1h 6
      klines_4h := pyTailSlice klines_4h 6
      klines_1d := pyTailSlice klines_1d 7 }

/-! ## Untyped (dict) rendering of a snapshot document

`create_market_snapshot` builds a plain dict; the typed `SnapshotDoc` and
the rendering below together denote that dict.  Numeric values are
rendered with `.float` ints with `.int` (the int-vs-float distinction of
Python literals does not affect any claim: both kinds round-trip through
`json` exactly). -/

/-- A depth level as the source stores it: the tuple `(price, qty)`. -/
def pairToPy (pq : ℚ × ℚ) : PyVal :=
  .tuple (.cons (.float pq.1) (.cons (.float pq.2) .nil))

/-- The same level after a `json` round trip: a two-element list. -/
def pairToPyListed (pq : ℚ × ℚ) : PyVal :=
  .list (.cons (.float pq.1) (.cons (.float pq.2) .nil))

/-- Renders a list of depth levels with the given per-level rendering. -/
def pyListOfPairs (pair : ℚ × ℚ → PyVal) : List (ℚ × ℚ) → PyList
  | [] => .nil
  | pq :: rest => .cons (pair pq) (pyListOfPairs pair rest)

/-- `dataclasses.asdict` on a `Kline`: keys in field-declaration order. -/
def klineToPy (k : Kline) : PyVal :=
  .dict (.cons "open_time" (.int k.open_time)
    (.cons "open" (.float k.open_)
    (.cons "high" (.float k.high)
    (.cons "low" (.float k.low)
    (.cons "close" (.float k.close)
    (.cons "volume" (.float k.volume)
    (.cons "close_time" (.int k.close_time)
    (.cons "quote_volume" (.float k.quote_volume)
    (.cons "trade_count" (.int k.trade_count)
    (.cons "taker_buy_volume" (.float k.taker_buy_volume)
    (.cons "taker_buy_quote_volume" (.float k.taker_buy_quote_volume)
      .nil)))))))))))

/-- Renders a kline series. -/
def pyListOfKlines : List Kline → PyList
  | [] => .nil
  | k :: rest => .cons (klineToPy k) (pyListOfKlines rest)

/-- The `"summary"` sub-dict rendering. -/
def summaryToPy (s : Summary) : PyVal :=
  .dict (.cons "price" (.float s.price)
    (.cons "avg_price_5m" (.float s.avg_price_5m)
    (.cons "price_change_24h" (.float s.price_change_24h)
    (.cons "price_change_percent_24h" (.float s.price_change_percent_24h)
    (.cons "high_24h" (.float s.high_24h)
    (.cons "low_24h" (.float s.low_24h)
    (.cons "volume_24h" (.float s.volume_24h)
    (.cons "quote_volume_24h" (.float s.quote_volume_24h)
    (.cons "trade_count_24h" (.int s.trade_count_24h)
      .nil)))))))))

/-- The `"book_ticker"` sub-dict rendering (`get_book_ticker`'s dict). -/
def bookTickerToPy (b : BookTicker) : PyVal :=
  .dict (.cons "symbol" (.str b.symbol)
    (.cons "bid_price" (.float b.bid_price)
    (.cons "bid_qty" (.float b.bid_qty)
    (.cons "ask_price" (.float b.ask_price)
    (.cons "ask_qty" (.float b.ask_qty)
      .nil)))))

/-- The full snapshot dict (`snapshot.py` lines 79–117), parametrised by
how a depth level is rendered: `pairToPy` gives the dict as built by the
source (tuples), `pairToPyListed` the dict as it reads back from JSON. -/
def pyOfSnapshotWith (pair : ℚ × ℚ → PyVal) (d : SnapshotDoc) : PyVal :=
  .dict (.cons "timestamp" (.str d.timestamp)
    (.cons "symbol" (.str d.symbol)
    (.cons "summary" (summaryToPy d.summary)
    (.cons "book_ticker" (bookTickerToPy d.book_ticker)
    (.cons "spread"
      (.dict (.cons "absolute" (.float d.spread.absolute)
        (.cons "percent" (.float d.spread.percent) .nil)))
    (.cons "depth_analysis"
      (.dict (.cons "total_bid_depth" (.float d.depth_analysis.total_bid_depth)
        (.cons "total_ask_depth" (.float d.depth_analysis.total_ask_depth)
        (.cons "bid_ask_ratio" (.float d.depth_analysis.bid_ask_ratio)
        (.cons "top_bids" (.list (pyListOfPairs pair d.depth_analysis.top_bids))
        (.cons "top_asks" (.list (pyListOfPairs pair d.depth_analysis.top_asks))
          .nil))))))
    (.cons "trade_analysis"
      (.dict (.cons "total_trades" (.int d.trade_analysis.total_trades)
        (.cons "buy_trades" (.int d.trade_analysis.buy_trades)
        (.cons "sell_trades" (.int d.trade_analysis.sell_trades)
        (.cons "buy_sell_ratio" (.float d.trade_analysis.buy_sell_ratio)
        (.cons "avg_trade_size" (.float d.trade_analysis.avg_trade_size)
          .nil))))))
    (.cons "klines"
      (.dict (.cons "1h" (.list (pyListOfKlines d.klines_1h))
        (.cons "4h" (.list (pyListOfKlines d.klines_4h))
        (.cons "1d" (.list (pyListOfKlines d.klines_1d))
          .nil))))
      .nil))))))))

/-- The snapshot dict exactly as `create_market_snapshot` builds it. -/
def pyOfSnapshot (d : SnapshotDoc) : PyVal :=
  pyOfSnapshotWith pairToPy d

/-- The snapshot dict as `json.load` returns it after a save: identical
except every depth-level tuple has become a two-element list. -/
def pyOfSnapshotLoaded (d : SnapshotDoc) : PyVal :=
  pyOfSnapshotWith pairToPyListed d

/-! ## Configuration (`config.py`) -/

/-- `SNAPSHOT_DIR = Path("snapshots")`. -/
def SNAPSHOT_DIR : String := "snapshots"

/-- `BINANCE_BASE_URL`. -/
def BINANCE_BASE_URL : String := "https://api.binance.com"

/-! ## SnapshotStore (`snapshot.py` lines 129–145) -/

/-- `save_snapshot`: makes the output directory (with parents, idempotent),
derives the file name from `symbol.lower()` and a **fresh**
`datetime.now()` (the `now` parameter — line 132; not anything stored in
`data`), writes the JSON serialization, and returns the path. -/
def save_snapshot (data : PyVal) (symbol : String) (output_dir : String)
    (now : DateTime) (fs : FileSystem) : FileSystem × String :=
  let timestamp := fmtTimestamp now
  let filename := output_dir ++ "/" ++ symbol.toLower ++ "_" ++ timestamp ++ ".json"
  ({ dirs := output_dir :: fs.dirs
     files := (filename, FileContent.jsonText (jsonOfPy data)) :: fs.files },
   filename)

/-- `load_snapshot`: opens the file and runs `json.load`.  It fails when
the file is missing or its text is not valid JSON, and performs **no**
schema validation on the parsed value. -/
def load_snapshot (fs : FileSystem) (filepath : String) : Except LoadError PyVal :=
  match lookupFile fs filepath with
  | Option.none => .error .fileNotFound
  | some (.jsonText v) => .ok (pyOfJson v)
  | some (.rawText _) => .error .jsonDecodeError

/-! ## The data source and `create_market_snapshot` -/

/-- One assembly call's view of the market data source: the outcome of each
of the nine fetches the source code issues (the error payload is the
transport exception's message). -/
structure MarketDataSource where
  ticker_price : Except String TickerPrice
  ticker_24h : Except String Ticker24h
  order_book : Except String OrderBookDepth
  recent_trades : Except String (List RecentTrade)
  avg_price : Except String ℚ
  book_ticker : Except String BookTicker
  klines_1h : Except String (List Kline)
  klines_4h : Except String (List Kline)
  klines_1d : Except String (List Kline)

/-- Propagating a fetch outcome into the assembly, tagging a failure with
the identity of the operation that raised it. -/
def liftFetch {α : Type} (op : FetchOp) : Except String α → Except SnapError α
  | .error m => .error (.unavailable ⟨op, m⟩)
  | .ok a => .ok a

/-- Whether an `Except` holds an error. -/
def exceptFails {ε α : Type} : Except ε α → Bool
  | .error _ => true
  | .ok _ => false

/-- Whether a given fetch of the source fails. -/
def fetchFails (src : MarketDataSource) : FetchOp → Bool
  | .tickerPrice => exceptFails src.ticker_price
  | .ticker24h => exceptFails src.ticker_24h
  | .orderBook => exceptFails src.order_book
  | .recentTrades => exceptFails src.recent_trades
  | .avgPrice => exceptFails src.avg_price
  | .bookTicker => exceptFails src.book_ticker
  | .klines1h => exceptFails src.klines_1h
  | .klines4h => exceptFails src.klines_4h
  | .klines1d => exceptFails src.klines_1d

/-- `BinanceClient` transport handle (state irrelevant to the claims apart
from identity and closing). -/
structure BinanceClient where
  base_url : String

/-- Observable outcome of one `create_market_snapshot` call. -/
structure RunResult where
  result : Except SnapError SnapshotDoc
  fs : FileSystem
  saveInvoked : Bool
  createdOwnClient : Bool
  closedClient : Bool

/-- `create_market_snapshot` (`snapshot.py` lines 20–126).  `tAssembly` is
the `datetime.now()` of line 80, `tSave` the one of line 132.  The nine
fetches run sequentially; the first failure short-circuits the `try` body,
so `save_snapshot` (line 120) runs only after every fetch and every derived
computation succeeded.  The `finally` block closes the client exactly when
the call created it (`should_close`). -/
def create_market_snapshot (symbol : String) (client : Option BinanceClient)
    (output_dir : Option String) (src : MarketDataSource)
    (tAssembly tSave : DateTime) (fs : FileSystem) : RunResult :=
  let should_close := client.isNone
  let dir := output_dir.getD SNAPSHOT_DIR
  let assembled : Except SnapError (SnapshotDoc × FileSystem) := do
    let ticker_price ← liftFetch .tickerPrice src.ticker_price
    let ticker_24h ← liftFetch .ticker24h src.ticker_24h
    let order_book ← liftFetch .orderBook src.order_book
    let recent_trades ← liftFetch .recentTrades src.recent_trades
    let avg_price ← liftFetch .avgPrice src.avg_price
    let book_ticker ← liftFetch .bookTicker src.book_ticker
    let klines_1h ← liftFetch .klines1h src.klines_1h
    let klines_4h ← liftFetch .klines4h src.klines_4h
    let klines_1d ← liftFetch .klines1d src.klines_1d
    let doc ← buildSnapshot symbol ticker_price ticker_24h order_book
      recent_trades avg_price book_ticker klines_1h klines_4h klines_1d tAssembly
    let saved := save_snapshot (pyOfSnapshot doc) symbol dir tSave fs
    pure (doc, saved.1)
  match assembled with
  | .ok (doc, fsAfter) =>
      { result := .ok doc, fs := fsAfter, saveInvoked := true
        createdOwnClient := should_close, closedClient := should_close }
  | .error e =>
      { result := .error e, fs := fs, saveInvoked := false
        createdOwnClient := should_close, closedClient := should_close }

/-! ## CLI snapshot path (`main.py`: `cmd_snapshot` inside `main`) -/

/-- Outcome of one CLI run. -/
structure CliRun where
  printedErrorLine : Bool
  exitCode : Nat
  fs : FileSystem

/-- The `main` → `cmd_snapshot` path: when `ping` fails, `cmd_snapshot`
prints an error line and **returns normally**, so `main`'s handler never
fires and the process exits 0.  Any exception raised while creating or
displaying the snapshot reaches `main`'s `except`, which prints an error
line and calls `sys.exit(1)`.  (The display on lines 124–125 divides by
`total_trades`, so a zero-trade snapshot also raises.) -/
def runSnapshotCommand (symbol : String) (pingOk : Bool)
    (src : MarketDataSource) (tAssembly tSave : DateTime)
    (fs : FileSystem) : CliRun :=
  if pingOk = false then
    { printedErrorLine := true, exitCode := 0, fs := fs }
  else
    let run := create_market_snapshot symbol (some ⟨BINANCE_BASE_URL⟩)
      Option.none src tAssembly tSave fs
    match run.result with
    | .error _ => { printedErrorLine := true, exitCode := 1, fs := run.fs }
    | .ok doc =>
        if doc.trade_analysis.total_trades = 0 then
          { printedErrorLine := true, exitCode := 1, fs := run.fs }
        else
          { printedErrorLine := false, exitCode := 0, fs := run.fs }

/-- Follows the spec's words (§6): the top-level shape of the persisted
document schema — a dict with exactly the eight documented keys, string
`timestamp`/`symbol`, dict-valued sections.  The source performs no such
check; this definition exists to compare the spec's `load` contract with
the code. -/
def spec_matchesSnapshotSchema : PyVal → Bool
  | .dict (.cons "timestamp" (.str _)
      (.cons "symbol" (.str _)
      (.cons "summary" (.dict _)
      (.cons "book_ticker" (.dict _)
      (.cons "spread" (.dict _)
      (.cons "depth_analysis" (.dict _)
      (.cons "trade_analysis" (.dict _)
      (.cons "klines" (.dict _)
        .nil)))))))) => true
  | _ => false

/-! ## Concrete fixtures (used by witnesses and counterexamples) -/

/-- An assembly-time clock reading. -/
def tW : DateTime := ⟨2026, 10, 12, 1, 2, 3⟩

/-- A later save-time clock reading (same day, different time of day). -/
def tW2 : DateTime := ⟨2026, 10, 12, 4, 5, 6⟩

/-- The empty filesystem. -/
def fs0 : FileSystem := ⟨[], []⟩

/-- A trade fixture. -/
def mkTrade (i : Int) (m : Bool) : RecentTrade :=
  { trade_id := i, price := 100, qty := 1, quote_qty := 100, time := 0
    is_buyer_maker := m }

/-- The spec's scenario sample: 10 trades, 7 buyer-initiated
(maker-is-buyer false), 3 seller-initiated (maker-is-buyer true). -/
def sample10 : List RecentTrade :=
  [mkTrade 1 false, mkTrade 2 false, mkTrade 3 false, mkTrade 4 false,
   mkTrade 5 false, mkTrade 6 false, mkTrade 7 false,
   mkTrade 8 true, mkTrade 9 true, mkTrade 10 true]

/-- The spec's scenario order book: bids `[[100,2],[99,3]]`, asks
`[[101,1],[102,4]]`. -/
def obS : OrderBookDepth :=
  { symbol := "ETHUSDT", bids := [(100, 2), (99, 3)]
    asks := [(101, 1), (102, 4)], last_update_id := 1 }

/-- An order book whose best bid price is 0 (bid side non-empty). -/
def obZero : OrderBookDepth :=
  { symbol := "ETHUSDT", bids := [(0, 1)], asks := [(1, 1)]
    last_update_id := 1 }

/-- A ticker-price fixture. -/
def tpW : TickerPrice := ⟨"ETHUSDT", 100⟩

/-- A 24h-statistics fixture. -/
def t24W : Ticker24h :=
  ⟨"ETHUSDT", 1, 2, 3, 4, 5, 6, 7, 8, 110, 90, 1000, 100000, 13, 14, 5000⟩

/-- A book-ticker fixture. -/
def btW : BookTicker := ⟨"ETHUSDT", 100, 1, 101, 1⟩

/-- A data source on which every fetch succeeds. -/
def srcAllOk : MarketDataSource :=
  { ticker_price := .ok tpW, ticker_24h := .ok t24W, order_book := .ok obS
    recent_trades := .ok sample10, avg_price := .ok 100
    book_ticker := .ok btW, klines_1h := .ok [], klines_4h := .ok []
    klines_1d := .ok [] }

/-- A data source that fails exactly on the depth fetch (the spec's
scenario). -/
def srcDepthFail : MarketDataSource :=
  { srcAllOk with order_book := .error "connection error" }

/-- A summary fixture. -/
def sumW : Summary := ⟨100, 100, 1, 2, 110, 90, 1000, 100000, 5000⟩

/-- A concrete snapshot document with a non-empty top-bid list (as every
snapshot of a non-empty book has) and stored creation timestamp
`isoformat tW`. -/
def docC : SnapshotDoc :=
  { timestamp := isoformat tW, symbol := "ETHUSDT", summary := sumW
    book_ticker := btW, spread := ⟨1, 1⟩
    depth_analysis :=
      { total_bid_depth := 5, total_ask_depth := 5, bid_ask_ratio := 1
        top_bids := [(100, 2)], top_asks := [(101, 1)] }
    trade_analysis :=
      { total_trades := 10, buy_trades := 7, sell_trades := 3
        buy_sell_ratio := 7 / 3, avg_trade_size := 1 }
    klines_1h := [], klines_4h := [], klines_1d := [] }

/-- A filesystem holding one valid-JSON file whose parsed value is the
bare number 42 (valid JSON, not a snapshot document) and one file whose
text is not valid JSON. -/
def fsW : FileSystem :=
  ⟨["snapshots"],
   [("a.json", .jsonText (.int 42)), ("b.json", .rawText "oops")]⟩

/-! ## Helper lemmas -/

/-- Division is exact when the denominator is non-zero. -/
theorem pydiv_ok {a b : ℚ} (h : b ≠ 0) : pydiv a b = .ok (a / b) := by
  simp [pydiv, h]

/-- The two trade classes partition the sample. -/
theorem trades_buy_add_trades_sell (ts : List RecentTrade) :
    trades_buy ts + trades_sell ts = ts.length := by
  induction ts with
  | nil => rfl
  | cons t ts ih =>
      simp only [trades_buy, trades_sell, List.filter_cons, List.length_cons] at *
      cases h : t.is_buyer_maker <;> simp [h] <;> omega

/-- `buy_sell_ratio` never faults: the guard covers the only zero
denominator. -/
theorem buy_sell_ratio_eq (ts : List RecentTrade) :
    buy_sell_ratio ts
      = .ok (if trades_sell ts = 0 then 0
             else (trades_buy ts : ℚ) / (trades_sell ts : ℚ)) := by
  unfold buy_sell_ratio
  by_cases h : trades_sell ts = 0
  · simp [h]
  · have hp : 0 < trades_sell ts := Nat.pos_of_ne_zero h
    rw [if_pos hp, pydiv_ok (by exact_mod_cast h), if_neg h]

/-- `bid_ask_ratio` never faults: the `> 0` guard covers the only zero
denominator. -/
theorem bid_ask_ratio_eq (ob : OrderBookDepth) :
    bid_ask_ratio ob
      = .ok (if total_ask_depth ob > 0
             then total_bid_depth ob / total_ask_depth ob else 0) := by
  unfold bid_ask_ratio
  by_cases h : total_ask_depth ob > 0
  · rw [if_pos h, if_pos h, pydiv_ok (ne_of_gt h)]
  · rw [if_neg h, if_neg h]

/-- `avg_trade_size` never faults: a non-empty sample has non-zero
length. -/
theorem avg_trade_size_eq (ts : List RecentTrade) :
    avg_trade_size ts
      = .ok (if ts = [] then 0
             else ((ts.map RecentTrade.qty).sum) / (ts.length : ℚ)) := by
  cases ts with
  | nil => simp [avg_trade_size]
  | cons t rest =>
      have h : ((t :: rest).length : ℚ) ≠ 0 := by
        have hl : (t :: rest).length = rest.length + 1 := rfl
        rw [hl]; push_cast; positivity
      simp only [avg_trade_size]
      rw [pydiv_ok h]
      simp

/-- Empty bid side: spread percent is 0. -/
theorem spread_percent_nil {ob : OrderBookDepth} (h : ob.bids = []) :
    spread_percent ob = .ok 0 := by
  simp [spread_percent, h]

/-- Non-empty bid side with non-zero best bid: the documented formula. -/
theorem spread_percent_pos {ob : OrderBookDepth} {b : ℚ × ℚ} {bs : List (ℚ × ℚ)}
    (h : ob.bids = b :: bs) (hb : b.1 ≠ 0) :
    spread_percent ob = .ok (spread ob / b.1 * 100) := by
  simp [spread_percent, h, pydiv_ok hb]

/-- Non-empty bid side with zero best bid: `ZeroDivisionError`. -/
theorem spread_percent_zero {ob : OrderBookDepth} {b : ℚ × ℚ} {bs : List (ℚ × ℚ)}
    (h : ob.bids = b :: bs) (hb : b.1 = 0) :
    spread_percent ob = .error .zeroDivision := by
  simp [spread_percent, h, pydiv, hb]

/-- A depth-level tuple reads back from JSON as a two-element list. -/
theorem pair_roundtrip (pq : ℚ × ℚ) :
    pyOfJson (jsonOfPy (pairToPy pq)) = pairToPyListed pq := by
  simp [pairToPy, pairToPyListed, jsonOfPy, pyOfJson, jsonOfPyList, pyOfJsonArr]

/-- A kline dict reads back from JSON unchanged. -/
theorem kline_roundtrip (k : Kline) :
    pyOfJson (jsonOfPy (klineToPy k)) = klineToPy k := by
  simp [klineToPy, jsonOfPy, pyOfJson, jsonOfPyObj, pyOfJsonObj]

/-- A list of depth-level tuples reads back with every tuple listed. -/
theorem pairs_roundtrip (xs : List (ℚ × ℚ)) :
    pyOfJsonArr (jsonOfPyList (pyListOfPairs pairToPy xs))
      = pyListOfPairs pairToPyListed xs := by
  induction xs with
  | nil => simp [pyListOfPairs, jsonOfPyList, pyOfJsonArr]
  | cons pq rest ih =>
      simp [pyListOfPairs, jsonOfPyList, pyOfJsonArr, ih, pair_roundtrip]

/-- A kline series reads back from JSON unchanged. -/
theorem klines_roundtrip (ks : List Kline) :
    pyOfJsonArr (jsonOfPyList (pyListOfKlines ks)) = pyListOfKlines ks := by
  induction ks with
  | nil => simp [pyListOfKlines, jsonOfPyList, pyOfJsonArr]
  | cons k rest ih =>
      simp [pyListOfKlines, jsonOfPyList, pyOfJsonArr, ih, kline_roundtrip]

/-- The JSON round trip of a snapshot dict: identical except the
depth-level tuples come back as lists. -/
theorem snapshot_roundtrip (d : SnapshotDoc) :
    pyOfJson (jsonOfPy (pyOfSnapshot d)) = pyOfSnapshotLoaded d := by
  simp [pyOfSnapshot, pyOfSnapshotLoaded, pyOfSnapshotWith, summaryToPy,
    bookTickerToPy, jsonOfPy, pyOfJson, jsonOfPyObj, pyOfJsonObj, jsonOfPyList,
    pyOfJsonArr, pairs_roundtrip, klines_roundtrip, kline_roundtrip]

/-- Listed and tuple renderings of a level list agree only on the empty
list. -/
theorem pairs_listed_eq_iff (xs : List (ℚ × ℚ)) :
    pyListOfPairs pairToPyListed xs = pyListOfPairs pairToPy xs ↔ xs = [] := by
  cases xs with
  | nil => simp [pyListOfPairs]
  | cons pq rest => simp [pyListOfPairs, pairToPy, pairToPyListed]

/-- The reloaded snapshot dict equals the original exactly when both
top-level lists are empty. -/
theorem snapshot_listed_eq_iff (d : SnapshotDoc) :
    pyOfSnapshotLoaded d = pyOfSnapshot d ↔
      d.depth_analysis.top_bids = [] ∧ d.depth_analysis.top_asks = [] := by
  simp [pyOfSnapshotLoaded, pyOfSnapshot, pyOfSnapshotWith, pairs_listed_eq_iff]

/-- `load ∘ save` on a snapshot dict returns the listified rendering. -/
theorem load_save_eq (d : SnapshotDoc) (sym dir : String) (now : DateTime)
    (fs : FileSystem) :
    load_snapshot (save_snapshot (pyOfSnapshot d) sym dir now fs).1
        (save_snapshot (pyOfSnapshot d) sym dir now fs).2
      = .ok (pyOfSnapshotLoaded d) := by
  simp [save_snapshot, load_snapshot, lookupFile, lookupFile.go,
    snapshot_roundtrip]

/-- If any fetch fails, assembly stops at the first failing fetch with its
error, `save_snapshot` never runs and the filesystem is untouched. -/
theorem create_error_of_fetchFails (symbol : String)
    (client : Option BinanceClient) (odir : Option String)
    (src : MarketDataSource) (tA tS : DateTime) (fs : FileSystem)
    (h : ∃ op, fetchFails src op = true) :
    ∃ op msg,
      (create_market_snapshot symbol client odir src tA tS fs).result
          = .error (.unavailable ⟨op, msg⟩)
        ∧ fetchFails src op = true
        ∧ (create_market_snapshot symbol client odir src tA tS fs).saveInvoked = false
        ∧ (create_market_snapshot symbol client odir src tA tS fs).fs = fs := by
  rcases h1 : src.ticker_price with m | xh1
  · exact ⟨.tickerPrice, m,
      by simp [create_market_snapshot, liftFetch, h1, Bind.bind, Except.bind],
      by simp [fetchFails, exceptFails, h1],
      by simp [create_market_snapshot, liftFetch, h1, Bind.bind, Except.bind],
      by simp [create_market_snapshot, liftFetch, h1, Bind.bind, Except.bind]⟩
  rcases h2 : src.ticker_24h with m | xh2
  · exact ⟨.ticker24h, m,
      by simp [create_market_snapshot, liftFetch, h1, h2, Bind.bind, Except.bind],
      by simp [fetchFails, exceptFails, h2],
      by simp [create_market_snapshot, liftFetch, h1, h2, Bind.bind, Except.bind],
      by simp [create_market_snapshot, liftFetch, h1, h2, Bind.bind, Except.bind]⟩
  rcases h3 : src.order_book with m | xh3
  · exact ⟨.orderBook, m,
      by simp [create_market_snapshot, liftFetch, h1, h2, h3, Bind.bind, Except.bind],
      by simp [fetchFails, exceptFails, h3],
      by simp [create_market_snapshot, liftFetch, h1, h2, h3, Bind.bind, Except.bind],
      by simp [create_market_snapshot, liftFetch, h1, h2, h3, Bind.bind, Except.bind]⟩
  rcases h4 : src.recent_trades with m | xh4
  · exact ⟨.recentTrades, m,
      by simp [create_market_snapshot, liftFetch, h1, h2, h3, h4, Bind.bind, Except.bind],
      by simp [fetchFails, exceptFails, h4],
      by simp [create_market_snapshot, liftFetch, h1, h2, h3, h4, Bind.bind, Except.bind],
      by simp [create_market_snapshot, liftFetch, h1, h2, h3, h4, Bind.bind, Except.bind]⟩
  rcases h5 : src.avg_price with m | xh5
  · exact ⟨.avgPrice, m,
      by simp [create_market_snapshot, liftFetch, h1, h2, h3, h4, h5, Bind.bind, Except.bind],
      by simp [fetchFails, exceptFails, h5],
      by simp [create_market_snapshot, liftFetch, h1, h2, h3, h4, h5, Bind.bind, Except.bind],
      by simp [create_market_snapshot, liftFetch, h1, h2, h3, h4, h5, Bind.bind, Except.bind]⟩
  rcases h6 : src.book_ticker with m | xh6
  · exact ⟨.bookTicker, m,
      by simp [create_market_snapshot, liftFetch, h1, h2, h3, h4, h5, h6, Bind.bind, Except.bind],
      by simp [fetchFails, exceptFails, h6],
      by simp [create_market_snapshot, liftFetch, h1, h2, h3, h4, h5, h6, Bind.bind, Except.bind],
      by simp [create_market_snapshot, liftFetch, h1, h2, h3, h4, h5, h6, Bind.bind, Except.bind]⟩
  rcases h7 : src.klines_1h with m | xh7
  · exact ⟨.klines1h, m,
      by simp [create_market_snapshot, liftFetch, h1, h2, h3, h4, h5, h6, h7, Bind.bind, Except.bind],
      by simp [fetchFails, exceptFails, h7],
      by simp [create_market_snapshot, liftFetch, h1, h2, h3, h4, h5, h6, h7, Bind.bind, Except.bind],
      by simp [create_market_snapshot, liftFetch, h1, h2, h3, h4, h5, h6, h7, Bind.bind, Except.bind]⟩
  rcases h8 : src.klines_4h with m | xh8
  · exact ⟨.klines4h, m,
      by simp [create_market_snapshot, liftFetch, h1, h2, h3, h4, h5, h6, h7, h8, Bind.bind, Except.bind],
      by simp [fetchFails, exceptFails, h8],
      by simp [create_market_snapshot, liftFetch, h1, h2, h3, h4, h5, h6, h7, h8, Bind.bind, Except.bind],
      by simp [create_market_snapshot, liftFetch, h1, h2, h3, h4, h5, h6, h7, h8, Bind.bind, Except.bind]⟩
  rcases h9 : src.klines_1d with m | xh9
  · exact ⟨.klines1d, m,
      by simp [create_market_snapshot, liftFetch, h1, h2, h3, h4, h5, h6, h7, h8, h9, Bind.bind, Except.bind],
      by simp [fetchFails, exceptFails, h9],
      by simp [create_market_snapshot, liftFetch, h1, h2, h3, h4, h5, h6, h7, h8, h9, Bind.bind, Except.bind],
      by simp [create_market_snapshot, liftFetch, h1, h2, h3, h4, h5, h6, h7, h8, h9, Bind.bind, Except.bind]⟩
  rcases h with ⟨op, hop⟩
  cases op <;> simp [fetchFails, exceptFails, h1, h2, h3, h4, h5, h6, h7, h8, h9] at hop

/-! ## Claims -/

/-- C1: whenever some required fetch of the data source fails,
`create_market_snapshot` fails with a `DataUnavailableError` identifying a
failing operation, `save_snapshot` is never invoked and the filesystem is
unchanged — no partial document reaches storage. -/
theorem C1_fetch_failure_atomic (symbol : String)
    (client : Option BinanceClient) (odir : Option String)
    (src : MarketDataSource) (tA tS : DateTime) (fs : FileSystem)
    (h : ∃ op, fetchFails src op = true) :
    ∃ op msg,
      (create_market_snapshot symbol client odir src tA tS fs).result
          = .error (.unavailable ⟨op, msg⟩)
        ∧ fetchFails src op = true
        ∧ (create_market_snapshot symbol client odir src tA tS fs).saveInvoked = false
        ∧ (create_market_snapshot symbol client odir src tA tS fs).fs = fs :=
  create_error_of_fetchFails symbol client odir src tA tS fs h

/-- C1 witness: the spec's scenario — depth fetch fails, everything else
succeeds. -/
theorem C1_witness :
    ∃ op msg,
      (create_market_snapshot "ETHUSDT" Option.none Option.none srcDepthFail
          tW tW2 fs0).result = .error (.unavailable ⟨op, msg⟩)
        ∧ fetchFails srcDepthFail op = true
        ∧ (create_market_snapshot "ETHUSDT" Option.none Option.none srcDepthFail
            tW tW2 fs0).saveInvoked = false
        ∧ (create_market_snapshot "ETHUSDT" Option.none Option.none srcDepthFail
            tW tW2 fs0).fs = fs0 :=
  C1_fetch_failure_atomic "ETHUSDT" Option.none Option.none srcDepthFail
    tW tW2 fs0 ⟨.orderBook, rfl⟩

/-- C2 counterexample: on an order book with a non-empty bid side whose
best bid price is 0 the spread-percent computation faults with
`ZeroDivisionError` instead of evaluating to 0 — the claim's "never
faults" clause is false. -/
theorem C2_counterexample :
    spread_percent obZero = .error SnapError.zeroDivision
    ∧ spread_percent obZero ≠ .ok 0 := by
  have h : spread_percent obZero = .error SnapError.zeroDivision := by
    simp [spread_percent, obZero, pydiv]
  exact ⟨h, by rw [h]; simp⟩

/-- C2 (amended): spread is bestAsk − bestBid when both sides are
non-empty and 0 otherwise; spread percent is 0 for an empty bid side and
spread / bestBid × 100 for a non-empty bid side with non-zero best bid,
but faults with `ZeroDivisionError` when the best bid price is 0 (the
guard checks only non-emptiness). -/
theorem C2_spread_spec (ob : OrderBookDepth) :
    ((ob.asks = [] ∨ ob.bids = []) → spread ob = 0)
  ∧ (∀ a as b bs, ob.asks = a :: as → ob.bids = b :: bs → spread ob = a.1 - b.1)
  ∧ (ob.bids = [] → spread_percent ob = .ok 0)
  ∧ (∀ b bs, ob.bids = b :: bs →
      (b.1 ≠ 0 → spread_percent ob = .ok (spread ob / b.1 * 100))
      ∧ (b.1 = 0 → spread_percent ob = .error .zeroDivision)) := by
  refine ⟨?_, ?_, ?_, ?_⟩
  · rintro (h | h)
    · cases hb : ob.bids <;> simp [spread, h, hb]
    · cases ha : ob.asks <;> simp [spread, h, ha]
  · intro a as b bs ha hb
    simp [spread, ha, hb]
  · intro h
    exact spread_percent_nil h
  · intro b bs hb
    exact ⟨fun hne => spread_percent_pos hb hne,
           fun hz => spread_percent_zero hb hz⟩

/-- C2 witness: the spec's scenario book — spread 1, spread percent
1/100 × 100. -/
theorem C2_witness :
    spread obS = 101 - 100
    ∧ spread_percent obS = .ok (spread obS / 100 * 100) :=
  ⟨(C2_spread_spec obS).2.1 (101, 1) [(102, 4)] (100, 2) [(99, 3)] rfl rfl,
   ((C2_spread_spec obS).2.2.2 (100, 2) [(99, 3)] rfl).1 (by norm_num)⟩

/-- C3 counterexample: a snapshot document with a non-empty top-bid list
does not survive the save/load round trip structurally equal — its
`(price, qty)` tuples come back as two-element lists. -/
theorem C3_counterexample :
    load_snapshot (save_snapshot (pyOfSnapshot docC) "ETHUSDT" "snapshots" tW2 fs0).1
        (save_snapshot (pyOfSnapshot docC) "ETHUSDT" "snapshots" tW2 fs0).2
      ≠ .ok (pyOfSnapshot docC) := by
  rw [load_save_eq]
  intro h
  have h2 : pyOfSnapshotLoaded docC = pyOfSnapshot docC := by
    simpa using h
  rw [snapshot_listed_eq_iff] at h2
  simp [docC] at h2

/-- C3 (amended): `load (save d)` yields the document with every
depth-level `(price, qty)` tuple in `top_bids`/`top_asks` deserialized as
a two-element list; every other field is preserved exactly, and the result
equals `d` exactly when both top-level lists are empty. -/
theorem C3_roundtrip_listified (d : SnapshotDoc) (sym dir : String)
    (now : DateTime) (fs : FileSystem) :
    load_snapshot (save_snapshot (pyOfSnapshot d) sym dir now fs).1
        (save_snapshot (pyOfSnapshot d) sym dir now fs).2
      = .ok (pyOfSnapshotLoaded d)
  ∧ (pyOfSnapshotLoaded d = pyOfSnapshot d ↔
      d.depth_analysis.top_bids = [] ∧ d.depth_analysis.top_asks = []) :=
  ⟨load_save_eq d sym dir now fs, snapshot_listed_eq_iff d⟩

/-- C4: a trade with maker-is-buyer true is counted as a sell trade and
one with the flag false as a buy trade, the two counts partition every
sample, and the 10-trade scenario (7 false / 3 true) yields 7 buys, 3
sells and ratio 7/3. -/
theorem C4_trade_classification :
    (∀ ts : List RecentTrade, trades_buy ts + trades_sell ts = ts.length)
  ∧ trades_buy sample10 = 7
  ∧ trades_sell sample10 = 3
  ∧ buy_sell_ratio sample10 = .ok (7 / 3) := by
  refine ⟨trades_buy_add_trades_sell, rfl, rfl, ?_⟩
  simp [buy_sell_ratio, trades_buy, trades_sell, sample10, mkTrade, pydiv]

/-- C5: the three guarded derivations never fault — buy/sell ratio is
buys/sells with 0 for a sell-free sample, average trade size is
sum-of-quantities / count with 0 for an empty sample, and bid/ask ratio is
totalBid/totalAsk with 0 for a zero total ask depth (quantities being
non-negative, as order-book quantities are). -/
theorem C5_guarded_ratios (ts : List RecentTrade) (ob : OrderBookDepth)
    (hq : ∀ pq ∈ ob.asks, 0 ≤ pq.2) :
    buy_sell_ratio ts
        = .ok (if trades_sell ts = 0 then 0
               else (trades_buy ts : ℚ) / (trades_sell ts : ℚ))
  ∧ avg_trade_size ts
        = .ok (if ts = [] then 0
               else ((ts.map RecentTrade.qty).sum) / (ts.length : ℚ))
  ∧ bid_ask_ratio ob
        = .ok (if total_ask_depth ob = 0 then 0
               else total_bid_depth ob / total_ask_depth ob) := by
  refine ⟨buy_sell_ratio_eq ts, avg_trade_size_eq ts, ?_⟩
  have h0 : 0 ≤ total_ask_depth ob := by
    apply List.sum_nonneg
    intro x hx
    rcases List.mem_map.mp hx with ⟨pq, hpq, rfl⟩
    exact hq pq hpq
  rw [bid_ask_ratio_eq]
  by_cases hz : total_ask_depth ob = 0
  · simp [hz]
  · have hlt : 0 < total_ask_depth ob := lt_of_le_of_ne h0 (Ne.symm hz)
    simp [hz, hlt]

/-- C5 witness: the scenario sample and book. -/
theorem C5_witness :
    buy_sell_ratio sample10
        = .ok (if trades_sell sample10 = 0 then 0
               else (trades_buy sample10 : ℚ) / (trades_sell sample10 : ℚ))
  ∧ avg_trade_size sample10
        = .ok (if sample10 = [] then 0
               else ((sample10.map RecentTrade.qty).sum) / (sample10.length : ℚ))
  ∧ bid_ask_ratio obS
        = .ok (if total_ask_depth obS = 0 then 0
               else total_bid_depth obS / total_ask_depth obS) :=
  C5_guarded_ratios sample10 obS (by decide)

/-- C6: the candle truncation keeps the most recent `min(len, K)` entries
as a suffix (original chronological order), and the assembled snapshot
applies it with K = 6 to the 1h series, 6 to the 4h series, 7 to the 1d
series. -/
theorem C6_kline_truncation :
    (∀ (l : List Kline) (k : Nat),
      pyTailSlice l k <:+ l ∧ (pyTailSlice l k).length = min l.length k)
  ∧ (∀ (sym : String) (tp : TickerPrice) (t24 : Ticker24h)
      (ob : OrderBookDepth) (ts : List RecentTrade) (avg : ℚ)
      (bt : BookTicker) (k1 k4 kd : List Kline) (t : DateTime),
      match buildSnapshot sym tp t24 ob ts avg bt k1 k4 kd t with
      | .ok doc => doc.klines_1h = pyTailSlice k1 6
          ∧ doc.klines_4h = pyTailSlice k4 6
          ∧ doc.klines_1d = pyTailSlice kd 7
      | .error _ => True) := by
  constructor
  · intro l k
    refine ⟨List.drop_suffix _ _, ?_⟩
    simp [pyTailSlice]
    omega
  · intro sym tp t24 ob ts avg bt k1 k4 kd t
    rcases hsp : spread_percent ob with e | v
    · simp [buildSnapshot, buy_sell_ratio_eq, bid_ask_ratio_eq,
        avg_trade_size_eq, hsp, Bind.bind, Except.bind, Pure.pure, Except.pure]
    · simp [buildSnapshot, buy_sell_ratio_eq, bid_ask_ratio_eq,
        avg_trade_size_eq, hsp, Bind.bind, Except.bind, Pure.pure, Except.pure]

/-- C7 counterexample: saving a document whose stored creation timestamp
renders as `20261012_010203` at clock time `tW2` yields the path derived
from `tW2`, not from the stored timestamp — the filename is not derived
from the document. -/
theorem C7_counterexample :
    docC.timestamp = isoformat tW
  ∧ fmtTimestamp tW = "20261012_010203"
  ∧ fmtTimestamp tW2 = "20261012_040506"
  ∧ (save_snapshot (pyOfSnapshot docC) "ETHUSDT" "snapshots" tW2 fs0).2
      = "snapshots" ++ "/" ++ "ETHUSDT".toLower ++ "_" ++ fmtTimestamp tW2 ++ ".json"
  ∧ fmtTimestamp tW2 ≠ fmtTimestamp tW := by
  refine ⟨rfl, rfl, rfl, rfl, ?_⟩
  decide

/-- C7 (amended): `save_snapshot` writes to
`<dir>/<lowercase symbol>_<YYYYMMDD_HHMMSS>.json` where the timestamp
renders the clock time at the moment of the save call (a fresh
`datetime.now()`, not the document's stored creation timestamp), creates
the directory on demand, stores the serialized document there and returns
the path. -/
theorem C7_save_naming (data : PyVal) (symbol dir : String) (now : DateTime)
    (fs : FileSystem) :
    (save_snapshot data symbol dir now fs).2
        = dir ++ "/" ++ symbol.toLower ++ "_" ++ fmtTimestamp now ++ ".json"
  ∧ dir ∈ (save_snapshot data symbol dir now fs).1.dirs
  ∧ lookupFile (save_snapshot data symbol dir now fs).1
        ((save_snapshot data symbol dir now fs).2)
      = some (.jsonText (jsonOfPy data)) := by
  refine ⟨rfl, ?_, ?_⟩
  · simp [save_snapshot]
  · simp [save_snapshot, lookupFile, lookupFile.go]

/-- C8 counterexample: a stored file holding the valid JSON value `42` —
which does not match the snapshot schema — loads successfully; no
schema-mismatch error is raised (no `CorruptSnapshotError` exists in the
code). -/
theorem C8_counterexample :
    load_snapshot fsW "a.json" = .ok (PyVal.int 42)
  ∧ spec_matchesSnapshotSchema (PyVal.int 42) = false := by
  constructor
  · simp [load_snapshot, lookupFile, lookupFile.go, fsW, pyOfJson]
  · rfl

/-- C8 (amended): `load_snapshot` fails only when the file is missing or
its text is not valid JSON (`json.load`'s decode error); it performs no
schema validation, succeeding on any stored valid-JSON value whether or
not it matches the snapshot schema. -/
theorem C8_load_no_schema_validation (fs : FileSystem) (path : String) :
    (∀ v : JsonVal, lookupFile fs path = some (.jsonText v) →
      load_snapshot fs path = .ok (pyOfJson v))
  ∧ (∀ s : String, lookupFile fs path = some (.rawText s) →
      load_snapshot fs path = .error .jsonDecodeError)
  ∧ (lookupFile fs path = Option.none →
      load_snapshot fs path = .error .fileNotFound) := by
  refine ⟨?_, ?_, ?_⟩
  · intro v h
    simp [load_snapshot, h]
  · intro s h
    simp [load_snapshot, h]
  · intro h
    simp [load_snapshot, h]

/-- C8 witness: the two stored files of `fsW`. -/
theorem C8_witness :
    load_snapshot fsW "a.json" = .ok (pyOfJson (.int 42))
  ∧ load_snapshot fsW "b.json" = .error .jsonDecodeError :=
  ⟨(C8_load_no_schema_validation fsW "a.json").1 (.int 42)
      (by simp [fsW, lookupFile, lookupFile.go]),
   (C8_load_no_schema_validation fsW "b.json").2.1 "oops"
      (by simp [fsW, lookupFile, lookupFile.go])⟩

/-- C9 counterexample: with the connectivity check failing, the CLI
snapshot run prints an error line but exits with status 0 — the claim's
non-zero exit is false on the unreachable-source path. -/
theorem C9_counterexample :
    (runSnapshotCommand "ETHUSDT" false srcAllOk tW tW2 fs0).printedErrorLine = true
  ∧ (runSnapshotCommand "ETHUSDT" false srcAllOk tW tW2 fs0).exitCode = 0 :=
  ⟨rfl, rfl⟩

/-- C9 (amended): when the ping fails the CLI prints an error line and
exits 0 (`cmd_snapshot` returns normally); when the ping succeeds and some
fetch fails, the raised error reaches `main`'s handler, which prints an
error line and exits 1. -/
theorem C9_cli_exit_codes (symbol : String) (src : MarketDataSource)
    (tA tS : DateTime) (fs : FileSystem) :
    ((runSnapshotCommand symbol false src tA tS fs).printedErrorLine = true
      ∧ (runSnapshotCommand symbol false src tA tS fs).exitCode = 0)
  ∧ ((∃ op, fetchFails src op = true) →
      (runSnapshotCommand symbol true src tA tS fs).printedErrorLine = true
      ∧ (runSnapshotCommand symbol true src tA tS fs).exitCode = 1) := by
  constructor
  · exact ⟨rfl, rfl⟩
  · intro h
    obtain ⟨op, msg, hres, hop, hsave, hfs⟩ :=
      create_error_of_fetchFails symbol (some ⟨BINANCE_BASE_URL⟩) Option.none
        src tA tS fs h
    constructor <;> simp [runSnapshotCommand, hres]

/-- C9 witness: the depth-failure source, on both the ping-failing and the
ping-succeeding path. -/
theorem C9_witness :
    ((runSnapshotCommand "ETHUSDT" false srcDepthFail tW tW2 fs0).printedErrorLine = true
      ∧ (runSnapshotCommand "ETHUSDT" false srcDepthFail tW tW2 fs0).exitCode = 0)
  ∧ ((runSnapshotCommand "ETHUSDT" true srcDepthFail tW tW2 fs0).printedErrorLine = true
      ∧ (runSnapshotCommand "ETHUSDT" true srcDepthFail tW tW2 fs0).exitCode = 1) :=
  ⟨(C9_cli_exit_codes "ETHUSDT" srcDepthFail tW tW2 fs0).1,
   (C9_cli_exit_codes "ETHUSDT" srcDepthFail tW tW2 fs0).2 ⟨.orderBook, rfl⟩⟩

/-- C10: a supplied client is never closed by `create_market_snapshot` on
any exit path; when no client is supplied the call creates its own and the
`finally` block closes it on every exit path. -/
theorem C10_client_lifecycle (symbol : String) (client : Option BinanceClient)
    (odir : Option String) (src : MarketDataSource) (tA tS : DateTime)
    (fs : FileSystem) :
    (∀ c, client = some c →
      (create_market_snapshot symbol client odir src tA tS fs).closedClient = false)
  ∧ (client = Option.none →
      (create_market_snapshot symbol client odir src tA tS fs).createdOwnClient = true
      ∧ (create_market_snapshot symbol client odir src tA tS fs).closedClient = true) := by
  constructor
  · rintro c rfl
    simp only [create_market_snapshot]
    split <;> rfl
  · rintro rfl
    constructor <;> (simp only [create_market_snapshot]; split <;> rfl)

/-- C10 witness: one call with a supplied client, one without. -/
theorem C10_witness :
    (create_market_snapshot "ETHUSDT" (some ⟨BINANCE_BASE_URL⟩) Option.none
        srcAllOk tW tW2 fs0).closedClient = false
  ∧ (create_market_snapshot "ETHUSDT" Option.none Option.none
        srcAllOk tW tW2 fs0).createdOwnClient = true
  ∧ (create_market_snapshot "ETHUSDT" Option.none Option.none
        srcAllOk tW tW2 fs0).closedClient = true :=
  ⟨(C10_client_lifecycle "ETHUSDT" (some ⟨BINANCE_BASE_URL⟩) Option.none
      srcAllOk tW tW2 fs0).1 ⟨BINANCE_BASE_URL⟩ rfl,
   ((C10_client_lifecycle "ETHUSDT" Option.none Option.none
      srcAllOk tW tW2 fs0).2 rfl).1,
   ((C10_client_lifecycle "ETHUSDT" Option.none Option.none
      srcAllOk tW tW2 fs0).2 rfl).2⟩

end RatuRest
